import Mathlib

/-!
Shallow embedding of `fastapi_crudrouter/core/tortoise.py` (the
`TortoiseCRUDRouter` adapter) together with the pagination types of
`fastapi_crudrouter/core/_types.py`.

Modelling conventions:
* A persisted **row** is an integer primary key plus a finite field map
  (an association list from column name to value), mirroring the spec's
  "Item ... identified by an integer primary key".
* The **store** is the list of persisted rows plus the next
  auto-increment primary key the database would assign on `save()`.
* ORM query-builder calls become list operations: `filter(id=i).first()`
  is the first row with the given id, `offset` is `List.drop`, `limit`
  is `List.take`, `order_by` is a sort by an externally supplied key,
  `count` is `List.length`, `delete` is a filter.
* `schema.from_tortoise_orm` / `schema.from_queryset` (external pydantic
  conversion) is an abstract function `toSchema : Row → Row` on rows (the
  spec says input/output schemas mirror the model's shape), and Python
  truthiness of the converted value is an abstract `schemaTruthy`
  predicate, since `_get_one` checks `if model:` after conversion.
* `await` of coroutines collapses to function application: handlers are
  single linear sequences (spec §5), so the asynchronous structure is
  not observable in the embedding.
* Raised exceptions become `Except`: `NOT_FOUND` is `Err.notFound`, and
  the Python `TypeError` for a call that omits a required positional
  argument is `Err.typeError`.
-/

namespace CrudTortoise

/-- A Python `TypeError` (calling a function without a required positional
argument) or the `NOT_FOUND` sentinel the host framework maps to 404. -/
inductive Err where
  | notFound
  | typeError
deriving DecidableEq, Repr

/-- A persisted record: integer primary key plus a field map (association
list from column name to value). -/
structure Row where
  id : Nat
  fields : List (String × Int)
deriving DecidableEq, Repr

/-- Database state: the persisted rows in insertion order, and the next
auto-increment primary key `save()` would assign. -/
structure Store where
  rows : List Row
  nextId : Nat
deriving DecidableEq, Repr

/-- Path parameters of the current request (`request.path_params`). -/
abbrev PathParams := List (String × String)

/-- The current HTTP request, reduced to what the handlers read from it. -/
structure Request where
  path_params : PathParams

/-- The router's `using_db` configuration: either a value taken as-is
(`self.using_db` when `not callable(self.using_db)`, including `None`),
or a resolver called with the request's path parameters; awaiting a
coroutine result collapses to the function's value. -/
inductive UsingDb where
  | value (v : Option Nat)
  | resolver (f : PathParams → Nat)

/-- The resolution step every handler performs first:
`using_db = self.using_db if not callable(self.using_db) else
self.using_db(**request.path_params)`, followed by awaiting a coroutine. -/
def resolve_using_db : UsingDb → PathParams → Option Nat
  | .value v, _ => v
  | .resolver f, pp => some (f pp)

/-- The externally supplied pieces the adapter closes over: the
`using_db` configuration, the ORM's `order_by` sort key for a column
name, the pydantic schema conversion and its truthiness, and the
`paginationextradata` flag. -/
structure Config where
  usingDb : UsingDb
  sortKey : String → Row → Int
  toSchema : Row → Row
  schemaTruthy : Row → Bool
  paginationextradata : Bool

/-- Insert a row into a list sorted by the `order_by` key. -/
def orderedInsert (key : Row → Int) (x : Row) : List Row → List Row
  | [] => [x]
  | y :: ys => if key x ≤ key y then x :: y :: ys else y :: orderedInsert key x ys

/-- The ORM's `order_by(sortby)`: sort the rows by the configured key for
that column. -/
def order_by (cfg : Config) (s : String) : List Row → List Row
  | [] => []
  | x :: xs => orderedInsert (cfg.sortKey s) x (order_by cfg s xs)

/-- `self.db_model.filter(id=item_id)....first()`: the first row whose
primary key equals `i`, or `none`. -/
def first_by_id : List Row → Nat → Option Row
  | [], _ => none
  | r :: rs, i => if r.id = i then some r else first_by_id rs i

/-- Result of the list route: the bare schema sequence, or
`{"results": ..., "count": ...}` when `paginationextradata` is enabled
(the `PAGINATIONEXTRADATA` shape of `_types.py`). -/
inductive GetAllOut where
  | bare (results : List Row)
  | withCount (results : List Row) (count : Nat)
deriving DecidableEq, Repr

/-- The `results` sequence of either form of the list route's output. -/
def GetAllOut.results : GetAllOut → List Row
  | .bare l => l
  | .withCount l _ => l

/-- The `count` of the list route's output (`0` for the bare form). -/
def GetAllOut.count : GetAllOut → Nat
  | .bare _ => 0
  | .withCount _ c => c

/-- Body of `_get_all`'s `route` after `using_db` resolution. Mirrors the
source line by line: `if sortby:` (Python truthiness, so `None` and the
empty string skip ordering) chooses between
`all().order_by(sortby).offset(skip)` and `all().offset(skip)`;
`if limit:` (truthiness, so `None` and `0` skip it) applies
`query.limit(limit)`; `schema.from_queryset` converts the remaining rows;
with `paginationextradata` the separate `all().count()` query is returned
alongside the results. -/
def get_all (cfg : Config) (store : Store) (skip : Nat) (limit : Option Nat)
    (sortby : Option String) : GetAllOut :=
  let query : List Row :=
    match sortby with
    | some s => if s = "" then store.rows.drop skip else (order_by cfg s store.rows).drop skip
    | none => store.rows.drop skip
  let query2 : List Row :=
    match limit with
    | some n => if n = 0 then query else query.take n
    | none => query
  let results := query2.map cfg.toSchema
  if cfg.paginationextradata then .withCount results store.rows.length
  else .bare results

/-- Body of `_get_one`'s `route`: look up the first row with the given
id; if absent raise `NOT_FOUND`; otherwise convert with
`schema.from_tortoise_orm` and, if the converted value is falsy, raise
`NOT_FOUND` as well. -/
def get_one (cfg : Config) (store : Store) (item_id : Nat) : Except Err Row :=
  match first_by_id store.rows item_id with
  | some m =>
      let m2 := cfg.toSchema m
      if cfg.schemaTruthy m2 then .ok m2 else .error .notFound
  | none => .error .notFound

/-- Body of `_create`'s `route`: `self.db_model(**model.dict())` builds a
row from exactly the payload's fields, `save()` persists it with the
database-assigned auto-increment primary key, and the saved row is
returned through `schema.from_tortoise_orm`. The `payload` argument
models `model.dict()`. -/
def create (cfg : Config) (store : Store) (payload : List (String × Int)) :
    Store × Row :=
  let row : Row := { id := store.nextId, fields := payload }
  ({ rows := store.rows ++ [row], nextId := store.nextId + 1 }, cfg.toSchema row)

/-- Set one column of a field map, as the ORM's SQL `UPDATE` does:
overwrite the entry for the key if present, append it otherwise. -/
def set_field : List (String × Int) → String → Int → List (String × Int)
  | [], k, v => [(k, v)]
  | (k1, v1) :: fs, k, v =>
      if k1 = k then (k, v) :: fs else (k1, v1) :: set_field fs k v

/-- Apply an update body (the pairs of `model.dict(exclude_unset=True)`,
i.e. exactly the explicitly set fields) to a field map, left to right. -/
def update_fields (fields : List (String × Int)) (body : List (String × Int)) :
    List (String × Int) :=
  body.foldl (fun fs kv => set_field fs kv.1 kv.2) fields

/-- The effect of `filter(id=item_id).update(**body)` on one stored row:
rows with the matching id get the body's fields set, others are kept. -/
def update_row (item_id : Nat) (body : List (String × Int)) (r : Row) : Row :=
  if r.id = item_id then { r with fields := update_fields r.fields body } else r

/-- Body of `_update`'s `route`: run the update-by-id query, then re-read
and return the item via `self._get_one()(item_id=item_id,
request=request)`. The body models `model.dict(exclude_unset=True)`. -/
def update (cfg : Config) (store : Store) (item_id : Nat)
    (body : List (String × Int)) : Store × Except Err Row :=
  let store2 : Store := { store with rows := store.rows.map (update_row item_id body) }
  (store2, get_one cfg store2 item_id)

/-- Body of `_delete_one`'s `route`: first read the item through
`self._get_one()(item_id=item_id, request=request)` — a raised
`NOT_FOUND` propagates before any deletion — then run
`filter(id=item_id).delete()` and return the pre-deletion value. -/
def delete_one (cfg : Config) (store : Store) (item_id : Nat) :
    Store × Except Err Row :=
  match get_one cfg store item_id with
  | .error e => (store, .error e)
  | .ok m =>
      ({ store with rows := store.rows.filter (fun r => r.id ≠ item_id) }, .ok m)

/-- The `route` returned by `_get_all`, at its Python call boundary: its
signature is `route(request: Request, pagination: PAGINATION = ...)`, so
`request` is a required positional argument; calling the route without
it raises `TypeError` before the body runs. `none` for `request` models
that missing argument. -/
def get_all_route (cfg : Config) (store : Store) (request : Option Request)
    (skip : Nat) (limit : Option Nat) (sortby : Option String) :
    Except Err GetAllOut :=
  match request with
  | none => .error .typeError
  | some _ => .ok (get_all cfg store skip limit sortby)

/-- Body of `_delete_all`'s `route`: `all().delete()` removes every row,
then the source evaluates `self._get_all()(pagination={"skip": 0,
"limit": None})` — a call that omits the route's required `request`
parameter, hence the `none` argument. -/
def delete_all (cfg : Config) (store : Store) : Store × Except Err GetAllOut :=
  let store2 : Store := { store with rows := [] }
  (store2, get_all_route cfg store2 none 0 none none)

/-- `TortoiseCRUDRouter.__init__`: the constructor first executes
`assert tortoise_installed, "Tortoise ORM must be installed to use the
TortoiseCRUDRouter."`; only past that assertion is the router (here: its
configuration, from which all six handlers are derived) produced. -/
def tortoise_router_init (tortoise_installed : Bool) (cfg : Config) :
    Except String Config :=
  if tortoise_installed then .ok cfg
  else .error "Tortoise ORM must be installed to use the TortoiseCRUDRouter."

/-! ### Query traces for the `using_db` invariant

Each handler resolves `using_db` from the request's path parameters and
passes the resolved value to every ORM query it issues. The traces below
record, straight from the source, each query of a handler together with
the `using_db` value handed to it. Error paths issue a prefix of the
trace. -/

/-- The kind of an ORM query issued by a handler. -/
inductive QueryKind where
  | selectAll
  | countAll
  | filterFirst (id : Nat)
  | save
  | updateById (id : Nat)
  | deleteById (id : Nat)
  | deleteAll
deriving DecidableEq, Repr

/-- One issued ORM query: its kind and the `using_db` value passed to it. -/
structure QueryRec where
  kind : QueryKind
  db : Option Nat
deriving DecidableEq, Repr

/-- Queries of `_get_all`: `self.db_model.all(using_db=using_db)...` and,
when `paginationextradata` is set, the separate
`self.db_model.all(using_db=using_db).count()`. -/
def get_all_queries (cfg : Config) (pp : PathParams) : List QueryRec :=
  let u := resolve_using_db cfg.usingDb pp
  ⟨.selectAll, u⟩ :: (if cfg.paginationextradata then [⟨.countAll, u⟩] else [])

/-- Query of `_get_one`: `filter(id=item_id).using_db(using_db).first()`. -/
def get_one_queries (cfg : Config) (pp : PathParams) (item_id : Nat) :
    List QueryRec :=
  [⟨.filterFirst item_id, resolve_using_db cfg.usingDb pp⟩]

/-- Query of `_create`: `db_model.save(using_db=using_db)`. -/
def create_queries (cfg : Config) (pp : PathParams) : List QueryRec :=
  [⟨.save, resolve_using_db cfg.usingDb pp⟩]

/-- Queries of `_update`: `filter(id=item_id).using_db(using_db).update(...)`
followed by the re-read `self._get_one()(item_id=item_id, request=request)`,
which re-resolves `using_db` from the same request. -/
def update_queries (cfg : Config) (pp : PathParams) (item_id : Nat) :
    List QueryRec :=
  ⟨.updateById item_id, resolve_using_db cfg.usingDb pp⟩ ::
    get_one_queries cfg pp item_id

/-- Queries of `_delete_one`: the `_get_one` re-read with the same request,
then `filter(id=item_id).using_db(using_db).delete()`. -/
def delete_one_queries (cfg : Config) (pp : PathParams) (item_id : Nat) :
    List QueryRec :=
  get_one_queries cfg pp item_id ++
    [⟨.deleteById item_id, resolve_using_db cfg.usingDb pp⟩]

/-- Query of `_delete_all`:
`all(using_db=using_db).delete(using_db=using_db)`; the subsequent
`self._get_all()(...)` call raises `TypeError` before issuing a query. -/
def delete_all_queries (cfg : Config) (pp : PathParams) : List QueryRec :=
  [⟨.deleteAll, resolve_using_db cfg.usingDb pp⟩]

/-- Read one column of a field map (first occurrence of the key). -/
def lookupField : List (String × Int) → String → Option Int
  | [], _ => none
  | (k1, v) :: fs, k => if k = k1 then some v else lookupField fs k

/-- The list pipeline exactly as claim C6 words it: order by `sortby`
whenever `sortby` is present, drop `skip` items, truncate to `limit`
items whenever `limit` is present, convert to the output schema. -/
def get_all_claimed (cfg : Config) (rows : List Row) (skip : Nat)
    (limit : Option Nat) (sortby : Option String) : List Row :=
  let ordered : List Row :=
    match sortby with
    | some s => order_by cfg s rows
    | none => rows
  let window : List Row :=
    match limit with
    | some n => (ordered.drop skip).take n
    | none => ordered.drop skip
  window.map cfg.toSchema

/-- The list pipeline as the code actually has it: ordering only when
`sortby` is present and non-empty (Python truthiness), truncation only
when `limit` is present and non-zero (Python truthiness). -/
def get_all_amended (cfg : Config) (rows : List Row) (skip : Nat)
    (limit : Option Nat) (sortby : Option String) : List Row :=
  let ordered : List Row :=
    match sortby with
    | some s => if s = "" then rows else order_by cfg s rows
    | none => rows
  let window : List Row :=
    match limit with
    | some n => if n = 0 then ordered.drop skip else (ordered.drop skip).take n
    | none => ordered.drop skip
  window.map cfg.toSchema

/-! ### Concrete instances for witnesses and counterexamples -/

/-- A concrete configuration: `using_db=None` (not callable, taken
as-is), sort key reading the primary key, identity schema conversion
(the output schema mirrors the model), always-truthy converted values
(pydantic model instances are truthy), extra metadata off. -/
def exCfg : Config where
  usingDb := .value none
  sortKey := fun _ r => (r.id : Int)
  toSchema := id
  schemaTruthy := fun _ => true
  paginationextradata := false

/-- `exCfg` with `paginationextradata` enabled. -/
def exCfgMeta : Config := { exCfg with paginationextradata := true }

/-- `exCfg` with a callable `using_db` resolving from path parameters. -/
def exCfg7 : Config := { exCfg with usingDb := .resolver (fun pp => pp.length + 7) }

/-- A concrete row with primary key `i` and one column `"x" = i`. -/
def exRow (i : Nat) : Row := { id := i, fields := [("x", (i : Int))] }

/-- A five-item store in primary-key order. -/
def exStore5 : Store := { rows := [exRow 1, exRow 2, exRow 3, exRow 4, exRow 5], nextId := 6 }

/-- A five-item store out of primary-key order (exercises `order_by`). -/
def exStoreMixed : Store := { rows := [exRow 5, exRow 3, exRow 1, exRow 4, exRow 2], nextId := 6 }

/-- The empty store. -/
def exStore0 : Store := { rows := [], nextId := 1 }

/-! ### Helper lemmas -/

/-- A row found by `first_by_id` has the id that was searched for. -/
theorem id_of_first_by_id {rows : List Row} {i : Nat} {r : Row}
    (h : first_by_id rows i = some r) : r.id = i := by
  induction rows with
  | nil => simp [first_by_id] at h
  | cons x xs ih =>
    by_cases hx : x.id = i
    · simp [first_by_id, hx] at h
      rw [← h]; exact hx
    · simp [first_by_id, hx] at h
      exact ih h

/-- No row survives a filter that removes the searched id. -/
theorem first_by_id_filter_ne (rows : List Row) (i : Nat) :
    first_by_id (rows.filter (fun r => r.id ≠ i)) i = none := by
  induction rows with
  | nil => rfl
  | cons x xs ih =>
    by_cases hx : x.id = i
    · simpa [List.filter_cons, hx] using ih
    · simpa [List.filter_cons, hx, first_by_id] using ih

/-- On a list with no row of the searched id, `first_by_id` finds nothing. -/
theorem first_by_id_eq_none {rows : List Row} {i : Nat}
    (h : ∀ r ∈ rows, r.id ≠ i) : first_by_id rows i = none := by
  induction rows with
  | nil => rfl
  | cons x xs ih =>
    simp only [List.mem_cons] at h
    simp [first_by_id, h x (Or.inl rfl), ih fun r hr => h r (Or.inr hr)]

/-- Search in an appended list falls through to the suffix when the
prefix has no matching row. -/
theorem first_by_id_append {rows l : List Row} {i : Nat}
    (h : first_by_id rows i = none) :
    first_by_id (rows ++ l) i = first_by_id l i := by
  induction rows with
  | nil => rfl
  | cons x xs ih =>
    by_cases hx : x.id = i
    · simp [first_by_id, hx] at h
    · simp only [first_by_id, hx] at h ⊢
      simp [List.cons_append, first_by_id, hx, ih h]

/-- `first_by_id` commutes with mapping an id-preserving function. -/
theorem first_by_id_map {rows : List Row} {i : Nat} {f : Row → Row}
    (hf : ∀ r, (f r).id = r.id) :
    first_by_id (rows.map f) i = (first_by_id rows i).map f := by
  induction rows with
  | nil => rfl
  | cons x xs ih =>
    by_cases hx : x.id = i
    · simp [first_by_id, hf, hx]
    · simp [first_by_id, hf, hx, ih]

/-- `update_row` never changes a row's primary key. -/
theorem update_row_id (i : Nat) (body : List (String × Int)) (r : Row) :
    (update_row i body r).id = r.id := by
  unfold update_row; split <;> rfl

/-- `update_row` keeps rows with a different primary key unchanged. -/
theorem update_row_ne {i : Nat} {body : List (String × Int)} {r : Row}
    (h : r.id ≠ i) : update_row i body r = r := by
  unfold update_row; simp [h]

/-- Setting a column makes its value readable back. -/
theorem lookup_set_self (fs : List (String × Int)) (k : String) (v : Int) :
    lookupField (set_field fs k v) k = some v := by
  induction fs with
  | nil => simp [set_field, lookupField]
  | cons p fs ih =>
    by_cases hp : p.1 = k
    · simp [set_field, hp, lookupField]
    · have : ¬(k = p.1) := fun h => hp h.symm
      simp [set_field, hp, lookupField, this, ih]

/-- Setting one column leaves every other column's value unchanged. -/
theorem lookup_set_other {k k1 : String} (fs : List (String × Int)) (v : Int)
    (h : k ≠ k1) :
    lookupField (set_field fs k1 v) k = lookupField fs k := by
  induction fs with
  | nil => simp [set_field, lookupField, h]
  | cons p fs ih =>
    by_cases hp : p.1 = k1
    · simp [set_field, hp, lookupField, h]
    · simp [set_field, hp, lookupField, ih]

/-- A whole update body leaves columns outside its key set unchanged. -/
theorem update_fields_not_mem {k : String} (body fs : List (String × Int))
    (h : k ∉ body.map Prod.fst) :
    lookupField (update_fields fs body) k = lookupField fs k := by
  induction body generalizing fs with
  | nil => rfl
  | cons p rest ih =>
    simp only [List.map_cons, List.mem_cons] at h
    push_neg at h
    have step : update_fields fs (p :: rest) =
        update_fields (set_field fs p.1 p.2) rest := rfl
    rw [step, ih _ h.2, lookup_set_other _ _ h.1]

/-- A column explicitly set by the update body reads back as the body's
value (body keys are unique, as they come from a Python dict). -/
theorem update_fields_mem {k : String} {v : Int} {body : List (String × Int)}
    (fs : List (String × Int)) (hnd : (body.map Prod.fst).Nodup)
    (hmem : (k, v) ∈ body) :
    lookupField (update_fields fs body) k = some v := by
  induction body generalizing fs with
  | nil => simp at hmem
  | cons p rest ih =>
    simp only [List.map_cons, List.nodup_cons] at hnd
    have step : update_fields fs (p :: rest) =
        update_fields (set_field fs p.1 p.2) rest := rfl
    rcases List.mem_cons.mp hmem with hp | hp
    · have hk : p.1 = k := by rw [← hp]
      have hv : p.2 = v := by rw [← hp]
      have hnot : k ∉ rest.map Prod.fst := by rw [← hk]; exact hnd.1
      rw [step, update_fields_not_mem _ _ hnot, hk, hv, lookup_set_self]
    · exact step ▸ ih _ hnd.2 hp

/-! ### Claim theorems -/

/-- Claim C1 (code bug): the delete-all handler does delete every row
unconditionally, but it then invokes the list route as
`self._get_all()(pagination={"skip": 0, "limit": None})`, omitting the
route's required `request` parameter, so for every configuration and
store it raises a `TypeError` instead of returning the re-filtered item
list. -/
theorem delete_all_deletes_then_raises_typeerror (cfg : Config) (store : Store) :
    delete_all cfg store = ({ store with rows := [] }, .error .typeError) := rfl

/-- Claim C9: constructing the router with the ORM dependency unavailable
fails at construction time with the assertion message, so no router
configuration (hence no handler) is produced; with the dependency
present, construction succeeds. -/
theorem init_asserts_orm_installed :
    (∀ cfg : Config, tortoise_router_init false cfg =
      .error "Tortoise ORM must be installed to use the TortoiseCRUDRouter.") ∧
    (∀ cfg : Config, tortoise_router_init true cfg = .ok cfg) :=
  ⟨fun _ => rfl, fun _ => rfl⟩

/-- Claim C10: `limit=0` is falsy in `if limit:`, so a zero limit applies
no truncation at all — the handler's output is identical to the output
with no limit, and (without a sort) the results are every item after the
skip offset. -/
theorem get_all_limit_zero (cfg : Config) (store : Store) (skip : Nat)
    (sortby : Option String) :
    get_all cfg store skip (some 0) sortby = get_all cfg store skip none sortby ∧
    (get_all cfg store skip (some 0) none).results =
      (store.rows.drop skip).map cfg.toSchema := by
  constructor
  · rfl
  · unfold get_all
    cases h : cfg.paginationextradata <;> simp [h, GetAllOut.results]

/-- Claim C5: with `paginationextradata` enabled the list handler returns
the `{results, count}` form, where `count` comes from the separate
`all().count()` query and equals the total unfiltered row count,
independent of `skip`, `limit` and `sortby`. -/
theorem get_all_extradata_total_count (cfg : Config) (store : Store)
    (skip : Nat) (limit : Option Nat) (sortby : Option String)
    (h : cfg.paginationextradata = true) :
    get_all cfg store skip limit sortby =
      GetAllOut.withCount (get_all cfg store skip limit sortby).results
        store.rows.length ∧
    (get_all cfg store skip limit sortby).count = store.rows.length := by
  unfold get_all
  simp [h, GetAllOut.results, GetAllOut.count]

/-- Witness for C5 at a concrete store and pagination. -/
theorem get_all_extradata_total_count_witness :
    exCfgMeta.paginationextradata = true ∧
    (get_all exCfgMeta exStore5 2 (some 2) none =
      GetAllOut.withCount (get_all exCfgMeta exStore5 2 (some 2) none).results
        exStore5.rows.length ∧
    (get_all exCfgMeta exStore5 2 (some 2) none).count = exStore5.rows.length) :=
  ⟨rfl, get_all_extradata_total_count exCfgMeta exStore5 2 (some 2) none rfl⟩

/-- Counterexample to claim C6 as stated: on the five-item store with
`skip=0` and `limit=0`, the claimed pipeline truncates to zero items, but
the handler's `if limit:` treats a zero limit as absent and returns all
five items. -/
theorem get_all_claimed_pipeline_fails :
    (get_all exCfg exStore5 0 (some 0) none).results ≠
      get_all_claimed exCfg exStore5.rows 0 (some 0) none := by decide

/-- Claim C6 (amended): the list handler's results are exactly the
pipeline "order by `sortby` when present and non-empty, drop `skip`,
truncate to `limit` when present and non-zero, convert to schema"; in
particular `limit=2` on a five-item store yields exactly 2 items,
`skip=2, limit=2` yields the items ranked 3rd and 4th in the chosen
order (default order, or `sortby` order), and the empty store yields the
empty sequence. -/
theorem get_all_follows_amended_pipeline :
    (∀ (cfg : Config) (store : Store) (skip : Nat) (limit : Option Nat)
      (sortby : Option String),
      (get_all cfg store skip limit sortby).results =
        get_all_amended cfg store.rows skip limit sortby) ∧
    (get_all exCfg exStore5 0 (some 2) none).results.length = 2 ∧
    (get_all exCfg exStore5 2 (some 2) none).results = [exRow 3, exRow 4] ∧
    (get_all exCfg exStoreMixed 2 (some 2) (some "x")).results = [exRow 3, exRow 4] ∧
    (get_all exCfg exStore0 0 none none).results = [] := by
  refine ⟨?_, by decide, by decide, by decide, by decide⟩
  intro cfg store skip limit sortby
  unfold get_all get_all_amended
  cases h : cfg.paginationextradata <;>
    rcases sortby with _ | s <;> rcases limit with _ | n <;>
      simp [h, GetAllOut.results] <;> split_ifs <;>
        simp [List.map_drop, List.map_take]

/-- Claim C2: the retrieve-one handler raises `NOT_FOUND` exactly when
the primary-key lookup finds no row or the schema conversion of the
found row is falsy; otherwise it returns the converted row; and
`NOT_FOUND` is the only error it raises. -/
theorem get_one_not_found_iff (cfg : Config) (store : Store) (i : Nat) :
    (get_one cfg store i = .error .notFound ↔
      first_by_id store.rows i = none ∨
        ∃ m, first_by_id store.rows i = some m ∧
          cfg.schemaTruthy (cfg.toSchema m) = false) ∧
    (∀ m, first_by_id store.rows i = some m →
      cfg.schemaTruthy (cfg.toSchema m) = true →
      get_one cfg store i = .ok (cfg.toSchema m)) ∧
    (∀ e, get_one cfg store i = .error e → e = .notFound) := by
  unfold get_one
  cases hf : first_by_id store.rows i with
  | none => simp
  | some m =>
    cases ht : cfg.schemaTruthy (cfg.toSchema m) <;> simp [ht]

/-- Witness for C2: the found-and-truthy branch at a concrete store. -/
theorem get_one_not_found_iff_witness :
    first_by_id exStore5.rows 3 = some (exRow 3) ∧
    exCfg.schemaTruthy (exCfg.toSchema (exRow 3)) = true ∧
    get_one exCfg exStore5 3 = .ok (exCfg.toSchema (exRow 3)) :=
  ⟨rfl, rfl, (get_one_not_found_iff exCfg exStore5 3).2.1 (exRow 3) rfl rfl⟩

/-- Claim C4: the delete-one handler reads the item through the get-one
path first; when nothing is found it raises `NOT_FOUND` and leaves the
store unchanged; when the item is found (and converts truthily) it
removes exactly the rows with that id and returns the pre-deletion
representation — after which retrieving the same id yields `NOT_FOUND`. -/
theorem delete_one_reads_then_deletes (cfg : Config) (store : Store) (i : Nat) :
    (first_by_id store.rows i = none →
      delete_one cfg store i = (store, .error .notFound)) ∧
    (∀ m, first_by_id store.rows i = some m →
      cfg.schemaTruthy (cfg.toSchema m) = true →
      delete_one cfg store i =
        ({ store with rows := store.rows.filter (fun r => r.id ≠ i) },
          .ok (cfg.toSchema m)) ∧
      get_one cfg (delete_one cfg store i).1 i = .error .notFound) := by
  constructor
  · intro hf
    unfold delete_one get_one
    simp [hf]
  · intro m hf ht
    have hdel : delete_one cfg store i =
        ({ store with rows := store.rows.filter (fun r => r.id ≠ i) },
          .ok (cfg.toSchema m)) := by
      unfold delete_one get_one
      simp [hf, ht]
    refine ⟨hdel, ?_⟩
    rw [hdel]
    unfold get_one
    have hnone := first_by_id_filter_ne store.rows i
    simp only [ne_eq, decide_not] at hnone ⊢
    rw [hnone]

/-- Witness for C4: deleting an existing item in a concrete store. -/
theorem delete_one_reads_then_deletes_witness :
    first_by_id exStore5.rows 2 = some (exRow 2) ∧
    exCfg.schemaTruthy (exCfg.toSchema (exRow 2)) = true ∧
    (delete_one exCfg exStore5 2 =
      ({ exStore5 with rows := exStore5.rows.filter (fun r => r.id ≠ 2) },
        .ok (exCfg.toSchema (exRow 2))) ∧
      get_one exCfg (delete_one exCfg exStore5 2).1 2 = .error .notFound) :=
  ⟨rfl, rfl, (delete_one_reads_then_deletes exCfg exStore5 2).2 (exRow 2) rfl rfl⟩

/-- Claim C3: for an existing item id, the update handler changes exactly
the fields explicitly set in the body (other fields of that item, and
all other items, keep their prior values) and returns the result of
re-reading the item through the get-one path on the updated store, so
its `NOT_FOUND` and output-shaping behaviour are get-one's. -/
theorem update_patch_spec (cfg : Config) (store : Store) (i : Nat)
    (body : List (String × Int)) (r : Row)
    (hr : first_by_id store.rows i = some r)
    (hnd : (body.map Prod.fst).Nodup) :
    first_by_id (update cfg store i body).1.rows i =
      some (update_row i body r) ∧
    (update_row i body r).id = r.id ∧
    (∀ k v, (k, v) ∈ body →
      lookupField (update_row i body r).fields k = some v) ∧
    (∀ k, k ∉ body.map Prod.fst →
      lookupField (update_row i body r).fields k = lookupField r.fields k) ∧
    (∀ j, j ≠ i → first_by_id (update cfg store i body).1.rows j =
      first_by_id store.rows j) ∧
    (update cfg store i body).2 = get_one cfg (update cfg store i body).1 i := by
  have hid : r.id = i := id_of_first_by_id hr
  have hmap : ∀ j, first_by_id (update cfg store i body).1.rows j =
      (first_by_id store.rows j).map (update_row i body) := by
    intro j
    show first_by_id (store.rows.map (update_row i body)) j = _
    exact first_by_id_map (fun r => update_row_id i body r)
  refine ⟨?_, update_row_id i body r, ?_, ?_, ?_, rfl⟩
  · rw [hmap i, hr]; rfl
  · intro k v hkv
    simp only [update_row, hid, if_pos]
    exact update_fields_mem r.fields hnd hkv
  · intro k hk
    simp only [update_row, hid, if_pos]
    exact update_fields_not_mem body r.fields hk
  · intro j hj
    rw [hmap j]
    cases hfj : first_by_id store.rows j with
    | none => rfl
    | some q =>
      have hq : q.id = j := id_of_first_by_id hfj
      have hne : update_row i body q = q := update_row_ne (by rw [hq]; exact hj)
      simp [hne]

/-- Witness for C3: patching one field of an existing item and adding a
new one in a concrete store. -/
theorem update_patch_spec_witness :
    first_by_id exStore5.rows 2 = some (exRow 2) ∧
    (([("x", (42 : Int)), ("y", 1)].map Prod.fst).Nodup) ∧
    lookupField (update_row 2 [("x", 42), ("y", 1)] (exRow 2)).fields "x" =
      some 42 ∧
    lookupField (update_row 2 [("x", 42), ("y", 1)] (exRow 2)).fields "y" =
      some 1 ∧
    (update exCfg exStore5 2 [("x", 42), ("y", 1)]).2 =
      get_one exCfg (update exCfg exStore5 2 [("x", 42), ("y", 1)]).1 2 :=
  ⟨rfl, by decide,
    (update_patch_spec exCfg exStore5 2 [("x", 42), ("y", 1)] (exRow 2) rfl
      (by decide)).2.2.1 "x" 42 (by decide),
    (update_patch_spec exCfg exStore5 2 [("x", 42), ("y", 1)] (exRow 2) rfl
      (by decide)).2.2.1 "y" 1 (by decide),
    (update_patch_spec exCfg exStore5 2 [("x", 42), ("y", 1)] (exRow 2) rfl
      (by decide)).2.2.2.2.2⟩

/-- Claim C8: under a fresh primary key, a field-preserving output schema
and truthy converted values, the create handler persists a row built from
exactly the payload's fields, returns it with the server-assigned primary
key, and a subsequent get-one with that id returns the same value. -/
theorem create_then_get_one (cfg : Config) (store : Store)
    (payload : List (String × Int))
    (hfresh : ∀ r ∈ store.rows, r.id ≠ store.nextId)
    (hconv : ∀ r, cfg.toSchema r = r)
    (htruthy : ∀ r, cfg.schemaTruthy r = true) :
    (create cfg store payload).2.id = store.nextId ∧
    (create cfg store payload).2.fields = payload ∧
    get_one cfg (create cfg store payload).1 store.nextId =
      .ok (create cfg store payload).2 := by
  have hrow : (create cfg store payload).2 = ⟨store.nextId, payload⟩ := by
    show cfg.toSchema ⟨store.nextId, payload⟩ = _
    rw [hconv]
  have hfind : first_by_id (create cfg store payload).1.rows store.nextId =
      some ⟨store.nextId, payload⟩ := by
    show first_by_id (store.rows ++ [⟨store.nextId, payload⟩]) store.nextId = _
    rw [first_by_id_append (first_by_id_eq_none hfresh)]
    simp [first_by_id]
  refine ⟨by rw [hrow], by rw [hrow], ?_⟩
  unfold get_one
  rw [hfind]
  simp [htruthy, hconv, hrow]

/-- Witness for C8: creating into a concrete store and reading back. -/
theorem create_then_get_one_witness :
    (∀ r ∈ exStore5.rows, r.id ≠ exStore5.nextId) ∧
    (∀ r, exCfg.toSchema r = r) ∧
    (∀ r, exCfg.schemaTruthy r = true) ∧
    ((create exCfg exStore5 [("y", (7 : Int))]).2.id = exStore5.nextId ∧
     (create exCfg exStore5 [("y", (7 : Int))]).2.fields = [("y", (7 : Int))] ∧
     get_one exCfg (create exCfg exStore5 [("y", (7 : Int))]).1 exStore5.nextId =
       .ok (create exCfg exStore5 [("y", (7 : Int))]).2) :=
  ⟨by decide, fun _ => rfl, fun _ => rfl,
    create_then_get_one exCfg exStore5 [("y", (7 : Int))] (by decide)
      (fun _ => rfl) (fun _ => rfl)⟩

/-- Claim C7: each handler resolves the database handle once from its
request's path parameters (a non-callable `using_db` is taken as-is, a
callable one is applied to the path parameters, awaiting collapsed), and
every ORM query that handler issues carries that same resolved value —
including the queries of the get-one re-read inside update and
delete-one, which re-resolve from the same request. -/
theorem queries_use_resolved_db (cfg : Config) (pp : PathParams) (i : Nat)
    (q : QueryRec) :
    (q ∈ get_all_queries cfg pp → q.db = resolve_using_db cfg.usingDb pp) ∧
    (q ∈ get_one_queries cfg pp i → q.db = resolve_using_db cfg.usingDb pp) ∧
    (q ∈ create_queries cfg pp → q.db = resolve_using_db cfg.usingDb pp) ∧
    (q ∈ update_queries cfg pp i → q.db = resolve_using_db cfg.usingDb pp) ∧
    (q ∈ delete_one_queries cfg pp i → q.db = resolve_using_db cfg.usingDb pp) ∧
    (q ∈ delete_all_queries cfg pp → q.db = resolve_using_db cfg.usingDb pp) := by
  have hone : q ∈ get_one_queries cfg pp i →
      q.db = resolve_using_db cfg.usingDb pp := by
    intro hq
    simp [get_one_queries] at hq
    rw [hq]
  refine ⟨?_, hone, ?_, ?_, ?_, ?_⟩
  · intro hq
    by_cases h : cfg.paginationextradata <;> simp [get_all_queries, h] at hq
    · rcases hq with h1 | h1 <;> rw [h1]
    · rw [hq]
  · intro hq
    simp [create_queries] at hq
    rw [hq]
  · intro hq
    simp only [update_queries, List.mem_cons] at hq
    rcases hq with h1 | h1
    · rw [h1]
    · exact hone h1
  · intro hq
    simp only [delete_one_queries, List.mem_append] at hq
    rcases hq with h1 | h1
    · exact hone h1
    · simp at h1
      rw [h1]
  · intro hq
    simp [delete_all_queries] at hq
    rw [hq]

/-- Witness for C7: the update query of a concrete request through a
callable `using_db` resolver. -/
theorem queries_use_resolved_db_witness :
    (⟨QueryKind.updateById 1, some 8⟩ : QueryRec) ∈
      update_queries exCfg7 [("tenant", "a")] 1 ∧
    (⟨QueryKind.updateById 1, some 8⟩ : QueryRec).db =
      resolve_using_db exCfg7.usingDb [("tenant", "a")] :=
  ⟨by decide,
    (queries_use_resolved_db exCfg7 [("tenant", "a")] 1
      ⟨QueryKind.updateById 1, some 8⟩).2.2.2.1 (by decide)⟩

end CrudTortoise
